import Mathlib

/-!
Verification development for the busigroup property-report generator.

The definitions below are a shallow embedding of the Python sources:

* `src/utils/data_processor.py` — header validation, image mapping,
  statistics, record extraction, price formatting;
* `src/utils/pdf_generator.py` — brand-preset selection and the
  property-page composer;
* `src/utils/pdf_components/html_builder.py` — the HTML composer's
  property pages.

Spreadsheet cells are modelled by `CellValue` (pandas cells are either
strings, ints, floats, or NaN); machine floats are modelled by exact
fractions (`Frac`), which is faithful on the decimal literals the report
pipeline handles. String scrubbing (`str.replace` of single characters)
is modelled by character-list filtering.
-/

/-- An exact fraction with (by construction) positive denominator, used to
model Python float arithmetic on the decimal values the pipeline handles.
Fractions are kept unreduced so that every operation is plain integer
arithmetic. -/
structure Frac where
  num : ℤ
  den : ℤ
deriving DecidableEq, Repr

/-- Embed an integer as a fraction. -/
def Frac.ofInt (n : ℤ) : Frac := ⟨n, 1⟩

/-- Fraction addition (no normalization). -/
def Frac.add (a b : Frac) : Frac := ⟨a.num * b.den + b.num * a.den, a.den * b.den⟩

/-- Fraction division (both denominators positive in every use here). -/
def Frac.div (a b : Frac) : Frac := ⟨a.num * b.den, a.den * b.num⟩

/-- Negation of a fraction. -/
def Frac.neg (a : Frac) : Frac := ⟨-a.num, a.den⟩

/-- Scale a fraction by an integer. -/
def Frac.scale (k : ℤ) (a : Frac) : Frac := ⟨k * a.num, a.den⟩

/-- Whether the fraction is a whole number (Python `x % 1 == 0`). -/
def Frac.isWhole (a : Frac) : Bool := a.den ∣ a.num

/-- Floor of a fraction with positive denominator. -/
def Frac.floor (a : Frac) : ℤ := Int.fdiv a.num a.den

/-- Python's built-in `round` on a fraction with positive denominator:
round half to even. -/
def Frac.pyRound (x : Frac) : ℤ :=
  let f := x.floor
  let rnum := x.num - f * x.den
  if 2 * rnum < x.den then f
  else if x.den < 2 * rnum then f + 1
  else if 2 ∣ f then f else f + 1

/-- A cell of the parsed spreadsheet: pandas hands the processor strings,
Python ints, Python floats, or NaN (missing). -/
inductive CellValue where
  | str (s : String)
  | int (n : ℤ)
  | float (q : Frac)
  | nan
deriving DecidableEq, Repr

/-- One row of the property table, with the columns `data_processor.py`
reads. `Type` and `PUT IN REPORT (T/F)` are compared against string
literals in the source, so they are modelled as strings. -/
structure Row where
  type : String
  streetAddress : String
  suburb : String
  siteZoning : CellValue
  propertyType : CellValue
  car : CellValue
  floorSize : CellValue
  lastListedPrice : CellValue
  totalLeasePrice : CellValue
  pricePerSqm : CellValue
  putInReport : String
  busisComment : CellValue
deriving DecidableEq, Repr

/-- A parsed table: the header names (checked by `process_excel_data`)
plus the data rows in source order. -/
structure DataFrame where
  columns : List String
  rows : List Row
deriving DecidableEq, Repr

/-- Value of a string of decimal digits, most significant first. -/
def digitsToNat (l : List Char) : ℕ :=
  l.foldl (fun a c => a * 10 + (c.toNat - 48)) 0

/-- Parse an unsigned decimal literal (digits, optionally a point and more
digits), as Python's `float` and `pandas.to_numeric` do on such strings;
anything else is a parse failure. -/
def parseUnsigned (l : List Char) : Option Frac :=
  let ip := l.takeWhile Char.isDigit
  let rest := l.dropWhile Char.isDigit
  match rest with
  | [] => if ip.isEmpty then Option.none else some ⟨digitsToNat ip, 1⟩
  | '.' :: fp =>
      if fp.all Char.isDigit && !(ip.isEmpty && fp.isEmpty) then
        some ⟨(digitsToNat ip : ℤ) * 10 ^ fp.length + digitsToNat fp, 10 ^ fp.length⟩
      else Option.none
  | _ => Option.none

/-- Parse an optionally signed decimal literal. -/
def parseDec (s : String) : Option Frac :=
  match s.toList with
  | '-' :: rest => (parseUnsigned rest).map Frac.neg
  | '+' :: rest => parseUnsigned rest
  | l => parseUnsigned l

/-- Remove every occurrence of a character from a string (Python's
`str.replace(c, "")`). -/
def removeChar (c : Char) (s : String) : String :=
  String.mk (s.toList.filter (fun d => d ≠ c))

/-- Remove the currency symbol and thousands separators, as the chained
`str.replace` calls in `calculate_average_price_per_sqm` do. -/
def stripCurrency (s : String) : String :=
  removeChar ',' (removeChar '$' s)

/-- The numeric coercion applied to the price-per-area column:
`astype(str)`, strip `$` and `,`, then `pd.to_numeric(errors=coerce)`.
Unparseable text and NaN become missing. -/
def toNumericCoerce (v : CellValue) : Option Frac :=
  match v with
  | .str s => parseDec (stripCurrency s)
  | .int n => some (Frac.ofInt n)
  | .float q => some q
  | .nan => Option.none

/-- The row filter used throughout `data_processor.py`:
`(df[Type] == property_type) & (df[PUT IN REPORT (T/F)] == put_in_report)`. -/
def rowMatches (property_type put_in_report : String) (r : Row) : Bool :=
  r.type == property_type && r.putInReport == put_in_report

/-- Embedding of `calculate_average_price_per_sqm` (data_processor.py
362–401): filter rows by type and inclusion flag; if none match return 0;
coerce the price-per-area cells to numbers (unparseable ↦ missing); the
mean skips missing values; a mean over no parseable value is NaN and is
returned as 0; otherwise round the mean half-to-even. -/
def calculate_average_price_per_sqm (df : DataFrame)
    (property_type put_in_report : String) : ℤ :=
  let filtered := df.rows.filter (rowMatches property_type put_in_report)
  if filtered.isEmpty then 0
  else if "$/m²" ∈ df.columns then
    let vals := (filtered.map (fun r => toNumericCoerce r.pricePerSqm)).filterMap id
    if vals.isEmpty then 0
    else Frac.pyRound ((vals.foldl Frac.add (Frac.ofInt 0)).div (Frac.ofInt vals.length))
  else 0

/-- A row template with every cell blank, used to build concrete test
tables; individual fields are overridden per test. -/
def blankRow : Row :=
  { type := "", streetAddress := "", suburb := "", siteZoning := .nan,
    propertyType := .nan, car := .nan, floorSize := .nan,
    lastListedPrice := .nan, totalLeasePrice := .nan, pricePerSqm := .nan,
    putInReport := "", busisComment := .nan }

/-- The column list of a well-formed input table. -/
def fullColumns : List String :=
  ["Type", "Property Photo", "Street Address", "Suburb", "State", "Postcode",
   "Site Zoning", "Property Type", "Car", "Floor Size (m²)", "Sale Price",
   "Last Listed Price (Sold/For Sale)", "Total Lease Price (Base + Outgoings)",
   "PUT IN REPORT (T/F)", "Busi\x27s Comment", "$/m²"]

/-- Four matching rows whose price-per-area cells are the spec's example
values. -/
def avgExampleDf : DataFrame :=
  { columns := fullColumns
    rows :=
      [{ blankRow with
          type := "For Lease"
          putInReport := "T"
          pricePerSqm := .str "$1,200" },
       { blankRow with
          type := "For Lease"
          putInReport := "T"
          pricePerSqm := .str "1100.50" },
       { blankRow with
          type := "For Lease"
          putInReport := "T"
          pricePerSqm := .str "bad" },
       { blankRow with
          type := "For Lease"
          putInReport := "T"
          pricePerSqm := .str "" }] }

/-- The image-association test table of the spec: three qualifying
for-lease rows followed by two qualifying for-sale rows, all flagged for
inclusion. -/
def imgExampleDf : DataFrame :=
  { columns := fullColumns
    rows :=
      [{ blankRow with type := "For Lease", putInReport := "T" },
       { blankRow with type := "For Lease", putInReport := "T" },
       { blankRow with type := "For Lease", putInReport := "T" },
       { blankRow with type := "For Sale", putInReport := "T" },
       { blankRow with type := "For Sale", putInReport := "T" }] }

/-- Embedding of `map_images_to_properties` (data_processor.py 176–219).
Rows are keyed by their DataFrame index, i.e. their position in
`df.rows`; `images` lists the extracted data URLs in extraction order
(image `k` of the source's 1-based dict is element `k - 1`). The source
walks the for-lease rows and then the for-sale rows with a 1-based
image counter, assigning the next image while any remain. -/
def map_images_to_properties (df : DataFrame) (images : List String) :
    List (ℕ × String) :=
  if images.isEmpty then []
  else
    let properties_for_report := df.rows.enum.filter (fun p => p.2.putInReport == "T")
    let for_lease := properties_for_report.filter (fun p => p.2.type == "For Lease")
    let for_sale := properties_for_report.filter (fun p => p.2.type == "For Sale")
    let step := fun (acc : List (ℕ × String) × ℕ) (p : ℕ × Row) =>
      if acc.2 ≤ images.length then
        (acc.1 ++ [(p.1, images.getD (acc.2 - 1) "")], acc.2 + 1)
      else acc
    let st1 := for_lease.foldl step ([], 1)
    let st2 := for_sale.foldl step st1
    st2.1

/-- The image-assignment loop of `map_images_to_properties`, abstracted
over the image list. -/
def imageStep (images : List String) (acc : List (ℕ × String) × ℕ)
    (p : ℕ × Row) : List (ℕ × String) × ℕ :=
  if acc.2 ≤ images.length then
    (acc.1 ++ [(p.1, images.getD (acc.2 - 1) "")], acc.2 + 1)
  else acc

/-- Lowercase a string (Python `str.lower`, ASCII fragment). -/
def lowerString (s : String) : String :=
  String.mk (s.toList.map Char.toLower)

/-- Split on runs of spaces, dropping empty pieces (Python `str.split()`
with no argument; the pipeline's cell text uses plain spaces). The second
argument accumulates the current word, reversed. -/
def wordsAux : List Char → List Char → List (List Char)
  | [], acc => if acc.isEmpty then [] else [acc.reverse]
  | c :: rest, acc =>
      if c = ' ' then
        if acc.isEmpty then wordsAux rest [] else acc.reverse :: wordsAux rest []
      else wordsAux rest (c :: acc)

/-- Python `str.capitalize`: first character uppercased, the rest
lowercased. -/
def capitalizeWord : List Char → List Char
  | [] => []
  | c :: rest => c.toUpper :: rest.map Char.toLower

/-- The address/suburb formatting of `extract_property_data`:
`" ".join(word.capitalize() for word in str(x).lower().split())`. -/
def titleCaseString (s : String) : String :=
  String.intercalate " "
    (((wordsAux (lowerString s).toList []).map capitalizeWord).map String.mk)

/-- Decimal digits of a natural number, most significant first; the first
argument is recursion fuel. -/
def natDigitsAux : ℕ → ℕ → List Char
  | 0, _ => []
  | fuel + 1, n =>
      if n = 0 then [] else natDigitsAux fuel (n / 10) ++ [Char.ofNat (48 + n % 10)]

/-- Decimal representation of a natural number. -/
def natRepr (n : ℕ) : String :=
  if n = 0 then "0" else String.mk (natDigitsAux (n + 1) n)

/-- Decimal representation of an integer. -/
def intRepr (n : ℤ) : String :=
  if n < 0 then "-" ++ natRepr n.natAbs else natRepr n.natAbs

/-- Decimal digits after the point of `r / d` by long division (fuel-bounded,
as Python float repr prints finitely many digits). -/
def fracDigitsAux : ℕ → ℕ → ℕ → List Char
  | 0, _, _ => []
  | fuel + 1, r, d =>
      if r = 0 then []
      else Char.ofNat (48 + (r * 10) / d) :: fracDigitsAux fuel ((r * 10) % d) d

/-- Python `str()` of a float holding the decimal value of the fraction
(e.g. `"1200.0"`, `"-1.5"`); used only to make cell stringification total. -/
def fracRepr (x : Frac) : String :=
  let n := x.num.natAbs
  let d := x.den.natAbs
  let ds := fracDigitsAux 17 (n % d) d
  (if x.num * x.den < 0 then "-" else "") ++ natRepr (n / d) ++ "." ++
    (if ds.isEmpty then "0" else String.mk ds)

/-- Python `str()` on a cell value (`str(row[...])`); pandas renders a
missing cell as `"nan"`. -/
def cellStr : CellValue → String
  | .str s => s
  | .int n => intRepr n
  | .float q => fracRepr q
  | .nan => "nan"

/-- Python `pd.notna` on a cell value. -/
def notna : CellValue → Bool
  | .nan => false
  | _ => true

/-- Group a little-endian digit list into blocks of three, units block
first. -/
def group3 : List α → List (List α)
  | [] => []
  | [a] => [[a]]
  | [a, b] => [[a, b]]
  | a :: b :: c :: rest => [a, b, c] :: group3 rest

/-- Comma-grouped decimal rendering of a natural number (Python
`f-string` `:,` formatting): digit blocks of three from the right,
separated by commas. -/
def commaGroupNat (n : ℕ) : String :=
  String.intercalate ","
    ((((group3 (natRepr n).toList.reverse).map List.reverse).reverse).map String.mk)

/-- Comma-grouped decimal rendering of an integer. -/
def commaGroupInt (n : ℤ) : String :=
  (if n < 0 then "-" else "") ++ commaGroupNat n.natAbs

/-- Two-digit rendering of a number below 100 (the cents of `:,.2f`). -/
def twoDigits (n : ℕ) : String :=
  String.mk [Char.ofNat (48 + n / 10 % 10), Char.ofNat (48 + n % 10)]

/-- Python `f"{x:,.2f}"` on the exact value: round to cents half-to-even,
then comma-group the integer part and print exactly two decimals. -/
def formatTwoDec (x : Frac) : String :=
  let cents := Frac.pyRound ⟨100 * x.num, x.den⟩
  (if cents < 0 then "-" else "") ++ commaGroupNat (cents.natAbs / 100) ++ "." ++
    twoDigits (cents.natAbs % 100)

/-- The numeric-string test of `format_price_string`:
`price_value.replace(",", "").replace(".", "").isdigit()` (Python
`isdigit` is false on the empty string). -/
def isDigitsCommasDots (s : String) : Bool :=
  let t := (removeChar '.' (removeChar ',' s)).toList
  !t.isEmpty && t.all Char.isDigit

/-- Embedding of `format_price_string` (data_processor.py 472–506): a
numeric value, or a string of digits/commas/points, is stripped of `$`
and `,`, parsed as a float, and rendered as `$` plus comma-grouped
integer when whole, else `$` plus comma-grouped two-decimal number; any
other value (parse failure included) passes through unchanged. A NaN cell
is a Python float, so it takes the numeric branch and prints as `$nan`. -/
def format_price_string : CellValue → String
  | .int n => "$" ++ commaGroupInt n
  | .float q =>
      if q.isWhole then "$" ++ commaGroupInt q.floor else "$" ++ formatTwoDec q
  | .str s =>
      if isDigitsCommasDots s then
        match parseDec (removeChar ',' (removeChar '$' s)) with
        | some q =>
            if q.isWhole then "$" ++ commaGroupInt q.floor else "$" ++ formatTwoDec q
        | Option.none => s
      else s
  | .nan => "$nan"

/-- A value of the normalized property dict: a string, or Python `None`. -/
inductive PValue where
  | str (s : String)
  | noneV
deriving DecidableEq, Repr

/-- Embedding of `extract_property_data` (data_processor.py 403–470): the
normalized property dict with exactly the keys the source writes, in
source order. The associated image (a data URL, or Python None) is stored
under key `image_data`. -/
def extract_property_data (row : Row) (property_type : String)
    (image_data : Option String) : List (String × PValue) :=
  let street_address := titleCaseString row.streetAddress
  let suburb := titleCaseString row.suburb
  let price :=
    if property_type == "For Lease" then
      if notna row.totalLeasePrice && !(row.totalLeasePrice == .str "") then
        format_price_string row.totalLeasePrice
      else "Not Disclosed"
    else if property_type == "For Sale" then
      if notna row.lastListedPrice && !(row.lastListedPrice == .str "") then
        format_price_string row.lastListedPrice
      else "Not Disclosed"
    else ""
  let floor_area := if notna row.floorSize then cellStr row.floorSize else "Not Disclosed"
  let car_spaces := if notna row.car then cellStr row.car else "-"
  [("suburb", .str row.suburb),
   ("suburb_formatted", .str suburb),
   ("street address", .str street_address),
   ("floor area", .str floor_area),
   ("price", .str price),
   ("zoning", .str (if notna row.siteZoning then cellStr row.siteZoning else "Not Specified")),
   ("property type", .str (if notna row.propertyType then cellStr row.propertyType else "Commercial")),
   ("car spaces", .str car_spaces),
   ("comments", .str (if notna row.busisComment then cellStr row.busisComment else "")),
   ("image_data", match image_data with | some u => PValue.str u | Option.none => PValue.noneV)]

/-- What a composer renders in a property entry's image slot. -/
inductive PropertyImage where
  | fromData (url : String)
  | placeholder
deriving DecidableEq, Repr

/-- The image slot of `create_property_pages` (pdf_generator.py 939–951):
reads key `image`; a present, truthy value different from the string
`nan` is loaded, anything else falls through to the `No Image Available`
placeholder. -/
def reportlabPropertyImage (property_data : List (String × PValue)) : PropertyImage :=
  match property_data.lookup "image" with
  | some (.str v) => if v ≠ "" && v ≠ "nan" then .fromData v else .placeholder
  | _ => .placeholder

/-- The image slot of `HtmlBuilder._add_property_pages` (html_builder.py
205–220) with the `property_item` template: the dict it renders takes
`property_data.get("image")`, and the template shows the placeholder
unless that value is truthy. -/
def htmlPropertyImage (property_data : List (String × PValue)) : PropertyImage :=
  match property_data.lookup "image" with
  | some (.str v) => if v ≠ "" then .fromData v else .placeholder
  | _ => .placeholder

/-- Per-category statistics of the map page (`result[statistics]`). -/
structure CategoryStats where
  total : ℕ
  criteria : ℕ
  avg_price : ℤ
deriving DecidableEq, Repr

/-- The four category entries of `result[statistics]`. -/
structure Statistics where
  for_lease : CategoryStats
  already_leased : CategoryStats
  for_sale : CategoryStats
  sold : CategoryStats
deriving DecidableEq, Repr

/-- The result dictionary of `process_excel_data`. -/
structure ReportResult where
  for_lease_properties : List (List (String × PValue))
  for_sale_properties : List (List (String × PValue))
  statistics : Statistics
deriving DecidableEq, Repr

/-- The `required_columns` list of `process_excel_data` (data_processor.py
249–253), in source order. -/
def required_columns : List String :=
  ["Type", "Property Photo", "Street Address", "Suburb", "State", "Postcode",
   "Site Zoning", "Property Type", "Car", "Floor Size (m²)", "Sale Price",
   "Last Listed Price (Sold/For Sale)", "Total Lease Price (Base + Outgoings)",
   "PUT IN REPORT (T/F)", "Busi\x27s Comment", "$/m²"]

/-- Python `repr` of a string: double quotes when the string contains an
apostrophe, single quotes otherwise (no column name contains both). -/
def pyStrRepr (s : String) : String :=
  if s.toList.contains '\x27' then "\x22" ++ s ++ "\x22" else "\x27" ++ s ++ "\x27"

/-- Python `str` of a list of strings, as interpolated into the
missing-columns error message. -/
def pyStrListRepr (l : List String) : String :=
  "[" ++ String.intercalate ", " (l.map pyStrRepr) ++ "]"

/-- An exception escaping `process_excel_data`: the pandas `KeyError` a
column access raises when that column is absent (carrying just the one
column name the access used), or the `ValueError` raised by the
missing-columns check (carrying its message). -/
inductive PyError where
  | keyError (key : String)
  | valueError (msg : String)
deriving DecidableEq, Repr

/-- The pre-validation image-mapping step as `process_excel_data` runs it
(data_processor.py 241–243, before the column check at 256):
`map_images_to_properties` returns at once on an empty image dict (line
188), but with images present its accesses `df["PUT IN REPORT (T/F)"]`
(line 192) and then `...["Type"]` (line 198) raise a pandas `KeyError` —
naming only that column — when the column is absent from the parsed
table. -/
def map_images_to_properties_checked (df : DataFrame) (images : List String) :
    Except PyError (List (ℕ × String)) :=
  if images.isEmpty then Except.ok []
  else if !df.columns.contains "PUT IN REPORT (T/F)" then
    Except.error (PyError.keyError "PUT IN REPORT (T/F)")
  else if !df.columns.contains "Type" then
    Except.error (PyError.keyError "Type")
  else Except.ok (map_images_to_properties df images)

/-- Embedding of `process_excel_data` (data_processor.py 221–360) behind
the image-extraction boundary: `extracted_images` stands for the data
URLs pulled out of the workbook archive, in extraction order (empty when
no file path was given or nothing was found). The function first maps
images to rows — a step that can itself raise a `KeyError`, since it runs
before any column validation — then validates the required columns,
raising `ValueError` with the full missing-name list, then computes the
four category statistics and collects the normalized for-lease and
for-sale properties by iterating the filtered rows in row order. -/
def process_excel_data (df : DataFrame) (extracted_images : List String) :
    Except PyError ReportResult :=
  match map_images_to_properties_checked df extracted_images with
  | Except.error e => Except.error e
  | Except.ok image_dict =>
  let missing_columns := required_columns.filter (fun c => !df.columns.contains c)
  if !missing_columns.isEmpty then
    Except.error (PyError.valueError
      ("Missing required columns: " ++ pyStrListRepr missing_columns))
  else
    let stats : Statistics :=
      { for_lease :=
          { total := (df.rows.filter (fun r => r.type == "For Lease")).length
            criteria := (df.rows.filter (rowMatches "For Lease" "T")).length
            avg_price := calculate_average_price_per_sqm df "For Lease" "T" }
        already_leased :=
          { total := (df.rows.filter (fun r => r.type == "Already Leased")).length
            criteria := (df.rows.filter (rowMatches "Already Leased" "T")).length
            avg_price := calculate_average_price_per_sqm df "Already Leased" "T" }
        for_sale :=
          { total := (df.rows.filter (fun r => r.type == "For Sale")).length
            criteria := (df.rows.filter (rowMatches "For Sale" "T")).length
            avg_price := calculate_average_price_per_sqm df "For Sale" "T" }
        sold :=
          { total := (df.rows.filter (fun r => r.type == "Sold")).length
            criteria := (df.rows.filter (rowMatches "Sold" "T")).length
            avg_price := calculate_average_price_per_sqm df "Sold" "T" } }
    let lease_rows := df.rows.enum.filter (fun p => rowMatches "For Lease" "T" p.2)
    let for_lease_properties := lease_rows.foldl
      (fun acc p =>
        acc ++ [extract_property_data p.2 "For Lease" (image_dict.lookup p.1)]) []
    let sale_rows := df.rows.enum.filter (fun p => rowMatches "For Sale" "T" p.2)
    let for_sale_properties := sale_rows.foldl
      (fun acc p =>
        acc ++ [extract_property_data p.2 "For Sale" (image_dict.lookup p.1)]) []
    Except.ok
      { for_lease_properties := for_lease_properties
        for_sale_properties := for_sale_properties
        statistics := stats }

/-- A table whose header lacks exactly the `Floor Size (m²)` column. -/
def missingFloorDf : DataFrame :=
  { columns := required_columns.filter (fun c => c ≠ "Floor Size (m²)")
    rows := [] }

/-- A table lacking two required columns, one of them the inclusion-flag
column the pre-validation image mapping accesses first. -/
def keyErrorDf : DataFrame :=
  { columns := required_columns.filter
      (fun c => c ≠ "Floor Size (m²)" ∧ c ≠ "PUT IN REPORT (T/F)")
    rows := [] }

/-- A qualifying for-lease row used in concrete tests. -/
def oneLeaseRow : Row :=
  { blankRow with
      type := "For Lease"
      putInReport := "T"
      suburb := "newtown"
      streetAddress := "123 main st"
      pricePerSqm := .str "100" }

/-- A one-row table whose single for-lease row qualifies for the report. -/
def oneLeaseDf : DataFrame :=
  { columns := required_columns
    rows := [oneLeaseRow] }

/-- An element emitted by the ReportLab property-page composer
(`create_property_pages`), at the granularity the pagination claim needs:
the per-page header table, the orange rule under it, one property entry
(title, subtitle, details and image collapsed into one block), the
spacers, the divider between properties (blue at even positions, orange
at odd), and page breaks. -/
inductive RLElement where
  | headerE
  | orangeRule
  | propEntry (pd : List (String × PValue))
  | spacer
  | divider (blue : Bool)
  | pageBreakE
deriving DecidableEq, Repr

/-- The page slicing `[properties[i:i+3] for i in range(0, len, 3)]`
(pdf_generator.py 883, html_builder.py 190). -/
def chunk3 : List α → List (List α)
  | [] => []
  | [a] => [[a]]
  | [a, b] => [[a, b]]
  | a :: b :: c :: rest => [a, b, c] :: chunk3 rest

/-- The per-page property loop of `create_property_pages` (917–1120):
each property entry, followed — only when it is not the last entry of the
page — by a spacer, a divider whose color alternates with the position,
and another spacer. -/
def chunkBody (i : ℕ) : List (List (String × PValue)) → List RLElement
  | [] => []
  | p :: rest =>
      RLElement.propEntry p ::
        (if rest.isEmpty then [] else
          [RLElement.spacer, RLElement.divider (i % 2 == 0), RLElement.spacer]) ++
        chunkBody (i + 1) rest

/-- One page of `create_property_pages`: the header table, the orange
rule, then the chunk's property entries with their dividers. -/
def pageElements (chunk : List (List (String × PValue))) : List RLElement :=
  RLElement.headerE :: RLElement.orangeRule :: chunkBody 0 chunk

/-- The page loop of `create_property_pages` (885–1124): each chunk's
page, with a page break after every page except the last. -/
def joinPages : List (List (List (String × PValue))) → List RLElement
  | [] => []
  | [ch] => pageElements ch
  | ch :: rest => pageElements ch ++ RLElement.pageBreakE :: joinPages rest

/-- Embedding of `create_property_pages` (pdf_generator.py 883–1128):
chunk the properties into pages of three and emit the pages, ending with
one final page break. -/
def create_property_pages (properties : List (List (String × PValue))) :
    List RLElement :=
  joinPages (chunk3 properties) ++ [RLElement.pageBreakE]

/-- The page chunking of `HtmlBuilder._add_property_pages`
(html_builder.py 189–191): the same three-per-page slicing. -/
def htmlPropertyChunks (properties : List (List (String × PValue))) :
    List (List (List (String × PValue))) :=
  chunk3 properties

/-- Whether an element is a between-properties divider. -/
def isDivider : RLElement → Bool
  | .divider _ => true
  | _ => false

/-- Number of dividers in an element list. -/
def countDividers (l : List RLElement) : ℕ :=
  l.countP isDivider

/-- Whether an element is a page header. -/
def isHeader : RLElement → Bool
  | .headerE => true
  | _ => false

/-- Number of page headers in an element list (one per emitted page). -/
def countHeaders (l : List RLElement) : ℕ :=
  l.countP isHeader

/-- Seven property dicts, for the spec's pagination example. -/
def sevenProps : List (List (String × PValue)) :=
  List.replicate 7 []

/-- Embedding of `column_letter_to_index` (data_processor.py 62–67):
fold each letter into `result * 26 + (ord(char.upper()) - ord("A")) + 1`,
then subtract one. -/
def column_letter_to_index (s : String) : ℤ :=
  (s.toList.foldl (fun r c => r * 26 + ((c.toUpper.toNat : ℤ) - 65) + 1) 0) - 1

/-- The `expected_headers` mapping of `validate_headers` (data_processor.py
32–49), in insertion order (Python dicts iterate in insertion order). -/
def expected_headers : List (String × String) :=
  [("A", "Type"), ("B", "Property Photo"), ("C", "Street Address"),
   ("D", "Suburb"), ("E", "State"), ("F", "Postcode"), ("G", "Site Zoning"),
   ("H", "Property Type"), ("K", "Car"), ("N", "Floor Size (m²)"),
   ("AL", "Last Listed Price (Sold/For Sale)"),
   ("AT", "Total Lease Price (Base + Outgoings)"),
   ("AZ", "Allowable Use in Zone (T/F)"), ("BA", "$/m²"),
   ("BD", "PUT IN REPORT (T/F)"), ("BF", "Busi\x27s Comment")]

/-- The `{"valid": ..., "error": ...}` dict returned by header
validation. -/
structure ValidationResult where
  valid : Bool
  error : Option String
deriving DecidableEq, Repr

/-- A string wrapped in single quotes, as the f-strings of
`validate_headers` interpolate names. -/
def pyQuote (s : String) : String := "\x27" ++ s ++ "\x27"

/-- The out-of-range message of `validate_headers` (line 80). -/
def missingColumnMsg (colLetter expectedHeader : String) : String :=
  "Column " ++ pyQuote colLetter ++ " does not exist in the file. Expected " ++
    pyQuote expectedHeader ++ " at column " ++ colLetter ++ "."

/-- The mismatch message of `validate_headers` (line 90). -/
def mismatchMsg (colLetter actualHeader expectedHeader : String) : String :=
  "Column " ++ pyQuote colLetter ++ " contains " ++ pyQuote actualHeader ++
    " but should contain " ++ pyQuote expectedHeader

/-- The checking loop of `validate_headers` (data_processor.py 70–94):
walk the expected headers in order; at the first out-of-range position or
header mismatch return the invalid result carrying that violation's
message; if no check fails, the header row is valid. -/
def checkHeaders (actual_columns : List String) :
    List (String × String) → ValidationResult
  | [] => { valid := true, error := Option.none }
  | (colLetter, expectedHeader) :: rest =>
      let col_index := column_letter_to_index colLetter
      if col_index ≥ (actual_columns.length : ℤ) then
        { valid := false, error := some (missingColumnMsg colLetter expectedHeader) }
      else
        let actual_header := actual_columns.getD col_index.toNat ""
        if actual_header ≠ expectedHeader then
          { valid := false
            error := some (mismatchMsg colLetter actual_header expectedHeader) }
        else checkHeaders actual_columns rest

/-- Embedding of `validate_headers` (data_processor.py 19–98) behind the
file read: validate the parsed header row against the fixed positional
contract. -/
def validate_headers (actual_columns : List String) : ValidationResult :=
  checkHeaders actual_columns expected_headers

/-- Whether one expected-header entry is violated by a header row: its
column position is out of range, or the header there differs. -/
def headerViolation (actual_columns : List String) (e : String × String) : Bool :=
  decide (column_letter_to_index e.1 ≥ (actual_columns.length : ℤ)) ||
    (actual_columns.getD (column_letter_to_index e.1).toNat "" != e.2)

/-- The message `validate_headers` produces for a violated entry. -/
def violationError (actual_columns : List String) (e : String × String) : String :=
  if column_letter_to_index e.1 ≥ (actual_columns.length : ℤ) then
    missingColumnMsg e.1 e.2
  else
    mismatchMsg e.1 (actual_columns.getD (column_letter_to_index e.1).toNat "") e.2

/-- The spec's reading of column letters: bijective base-26, where a
digit's value is its letter value (A = 0 … Z = 25) plus one. -/
def bijBase26 : List Char → ℤ
  | [] => 0
  | c :: rest => ((c.toUpper.toNat : ℤ) - 65 + 1) * 26 ^ rest.length + bijBase26 rest

/-- One brand preset of `generate_pdf` (pdf_generator.py 67–81). Asset
paths keep the file names the source joins onto its images directory. -/
structure BrandConfig where
  logo_path : String
  watermark_path : String
  website : String
  email : String
  first_line : String
deriving DecidableEq, Repr

/-- The BusiVet preset (pdf_generator.py 68–74). -/
def busivetConfig : BrandConfig :=
  { logo_path := "busivet_logo.png"
    watermark_path := "busivet_watermark.png"
    website := "BUSIVET.COM.AU"
    email := "BEN@BUSIVET.COM.AU"
    first_line := "Vet Partners" }

/-- The BusiHealth preset (pdf_generator.py 75–81). -/
def busihealthConfig : BrandConfig :=
  { logo_path := "busihealth_logo.png"
    watermark_path := "busihealth_watermark.png"
    website := "BUSIHEALTH.COM"
    email := "BEN@BUSIHEALTH.COM"
    first_line := "Health Partners" }

/-- The brand-preset selection of `generate_pdf` (pdf_generator.py
67–81): `business_type.lower() == "busivet"` picks the BusiVet preset and
everything else falls through to the BusiHealth preset. -/
def brandConfig (business_type : String) : BrandConfig :=
  if lowerString business_type = "busivet" then busivetConfig else busihealthConfig

theorem map_images_to_properties_eq_fold (df : DataFrame) (images : List String) :
    map_images_to_properties df images =
      if images.isEmpty then []
      else
        let included := df.rows.enum.filter (fun p => p.2.putInReport == "T")
        let for_lease := included.filter (fun p => p.2.type == "For Lease")
        let for_sale := included.filter (fun p => p.2.type == "For Sale")
        ((for_lease ++ for_sale).foldl (imageStep images) ([], 1)).1 := by
  simp only [map_images_to_properties, List.foldl_append]
  rfl

theorem imageStep_fold_characterization (images : List String) :
    ∀ (ps : List (ℕ × Row)) (m : List (ℕ × String)) (c : ℕ), 1 ≤ c →
      (ps.foldl (imageStep images) (m, c)).1 =
        m ++ List.zipWith (fun p url => (p.1, url)) ps (images.drop (c - 1)) := by
  intro ps
  induction ps with
  | nil => intro m c _; simp
  | cons p ps ih =>
      intro m c hc
      by_cases h : c ≤ images.length
      · have hlt : c - 1 < images.length := by omega
        have hdrop : images.drop (c - 1) =
            images.get ⟨c - 1, hlt⟩ :: images.drop c := by
          have := List.drop_eq_getElem_cons hlt
          simpa [List.get_eq_getElem, Nat.sub_add_cancel hc] using this
        have hgetD : images.getD (c - 1) "" = images.get ⟨c - 1, hlt⟩ := by
          rw [List.getD_eq_getElem?_getD, List.getElem?_eq_getElem hlt]
          simp [List.get_eq_getElem]
        calc ((p :: ps).foldl (imageStep images) (m, c)).1
            = (ps.foldl (imageStep images)
                (m ++ [(p.1, images.getD (c - 1) "")], c + 1)).1 := by
              simp [imageStep, h]
          _ = m ++ (p.1, images.get ⟨c - 1, hlt⟩) ::
                List.zipWith (fun p url => (p.1, url)) ps (images.drop c) := by
              rw [ih _ (c + 1) (by omega), hgetD]
              simp
          _ = m ++ List.zipWith (fun p url => (p.1, url)) (p :: ps)
                (images.drop (c - 1)) := by
              rw [hdrop]
              simp
      · have hdrop : images.drop (c - 1) = [] := by
          apply List.drop_eq_nil_of_le
          omega
        calc ((p :: ps).foldl (imageStep images) (m, c)).1
            = (ps.foldl (imageStep images) (m, c)).1 := by
              simp [imageStep, h]
          _ = m ++ List.zipWith (fun p url => (p.1, url)) ps (images.drop (c - 1)) :=
              ih m c hc
          _ = m ++ List.zipWith (fun p url => (p.1, url)) (p :: ps)
                (images.drop (c - 1)) := by rw [hdrop]; simp

/-- C2: `map_images_to_properties` assigns the extracted images, in
extraction order, first to the qualifying for-lease rows in row order and
then to the qualifying for-sale rows in row order; with fewer images than
qualifying rows the trailing rows get no image (the assignment is a
`zipWith`, total, so nothing can raise). In particular, with 2 images and
3 qualifying for-lease rows followed by 2 qualifying for-sale rows, image
1 goes to the first lease row, image 2 to the second, and the remaining
rows get no image. -/
theorem C2_map_images_positional_assignment :
    (∀ (df : DataFrame) (images : List String),
      map_images_to_properties df images =
        List.zipWith (fun p url => (p.1, url))
          ((df.rows.enum.filter (fun p => p.2.putInReport == "T")).filter
              (fun p => p.2.type == "For Lease") ++
            (df.rows.enum.filter (fun p => p.2.putInReport == "T")).filter
              (fun p => p.2.type == "For Sale"))
          images) ∧
    map_images_to_properties imgExampleDf ["u1", "u2"] = [(0, "u1"), (1, "u2")] := by
  constructor
  · intro df images
    rw [map_images_to_properties_eq_fold]
    by_cases he : images.isEmpty
    · have : images = [] := List.isEmpty_iff.mp he
      simp [he, this]
    · simp only [he, if_false]
      rw [imageStep_fold_characterization images _ [] 1 (by omega)]
      simp
  · decide

/-- C3: the normalizer stores the associated image under dict key
`image_data` (`extract_property_data`) while both composers read key
`image` (`create_property_pages` and `HtmlBuilder._add_property_pages`),
so for every normalized property the composers find no image and render
the `No Image Available` placeholder, regardless of what was extracted
and associated. -/
theorem C3_associated_image_never_rendered :
    ∀ (row : Row) (property_type : String) (image_data : Option String),
      (extract_property_data row property_type image_data).lookup "image" = Option.none ∧
      (extract_property_data row property_type image_data).lookup "image_data" =
        some (match image_data with | some u => PValue.str u | Option.none => PValue.noneV) ∧
      reportlabPropertyImage (extract_property_data row property_type image_data) =
        PropertyImage.placeholder ∧
      htmlPropertyImage (extract_property_data row property_type image_data) =
        PropertyImage.placeholder := by
  intro row property_type image_data
  refine ⟨rfl, ?_, rfl, rfl⟩
  cases image_data <;> rfl

/-- C6: price formatting — the integer 1200 renders as `$1,200`; the
float 1200.5 as `$1,200.50`; the free-text string `Offers above $500,000`
passes through unchanged, as does every string failing the
digits/commas/points test; and a missing or blank lease-price cell yields
the display price `Not Disclosed` in `extract_property_data`. -/
theorem C6_price_formatting :
    format_price_string (.int 1200) = "$1,200" ∧
    format_price_string (.float ⟨2401, 2⟩) = "$1,200.50" ∧
    format_price_string (.str "Offers above $500,000") = "Offers above $500,000" ∧
    (∀ s : String, isDigitsCommasDots s = false → format_price_string (.str s) = s) ∧
    (∀ (row : Row) (img : Option String),
      row.totalLeasePrice = CellValue.nan ∨ row.totalLeasePrice = CellValue.str "" →
      (extract_property_data row "For Lease" img).lookup "price" =
        some (PValue.str "Not Disclosed")) := by
  refine ⟨by decide, by decide, by decide, ?_, ?_⟩
  · intro s h
    simp [format_price_string, h]
  · intro row img h
    rcases h with h | h <;> simp only [extract_property_data, h] <;> rfl

theorem C6_price_formatting_witness :
    (isDigitsCommasDots "Not Disclosed" = false ∧
      format_price_string (.str "Not Disclosed") = "Not Disclosed") ∧
    (extract_property_data { blankRow with totalLeasePrice := CellValue.str "" }
        "For Lease" Option.none).lookup "price" = some (PValue.str "Not Disclosed") :=
  ⟨⟨by decide, C6_price_formatting.2.2.2.1 "Not Disclosed" (by decide)⟩,
   C6_price_formatting.2.2.2.2 _ Option.none (Or.inr rfl)⟩

theorem foldl_append_singleton {α β : Type} (f : α → β) :
    ∀ (l : List α) (acc : List β),
      l.foldl (fun acc x => acc ++ [f x]) acc = acc ++ l.map f := by
  intro l
  induction l with
  | nil => intro acc; simp
  | cons x xs ih => intro acc; simp [ih]

theorem map_images_checked_ok (df : DataFrame) (images : List String)
    (image_dict : List (ℕ × String))
    (h : map_images_to_properties_checked df images = Except.ok image_dict) :
    image_dict = map_images_to_properties df images := by
  by_cases hie : images.isEmpty
  · have he : images = [] := List.isEmpty_iff.mp hie
    subst he
    simp only [map_images_to_properties_checked, List.isEmpty_nil, if_true,
      Except.ok.injEq] at h
    rw [← h, map_images_to_properties]
    simp
  · by_cases h1 : df.columns.contains "PUT IN REPORT (T/F)"
    · by_cases h2 : df.columns.contains "Type"
      · have h1m : "PUT IN REPORT (T/F)" ∈ df.columns := by simpa using h1
        have h2m : "Type" ∈ df.columns := by simpa using h2
        simp [map_images_to_properties_checked, hie, h1m, h2m] at h
        exact h.symm
      · have h1m : "PUT IN REPORT (T/F)" ∈ df.columns := by simpa using h1
        have h2m : "Type" ∉ df.columns := by simpa using h2
        simp [map_images_to_properties_checked, hie, h1m, h2m] at h
    · have h1m : "PUT IN REPORT (T/F)" ∉ df.columns := by simpa using h1
      simp [map_images_to_properties_checked, hie, h1m] at h

/-- C4 (counterexample): on a table lacking both `Floor Size (m²)` and
`PUT IN REPORT (T/F)`, with one extracted image, `process_excel_data`
aborts with the pandas `KeyError` raised by the pre-validation image
mapping (data_processor.py line 192, reached at line 243 before the
column check at 256) — an error naming only the flag column, never a
`ValueError` — so no message lists the missing `Floor Size (m²)`,
refuting the claim that the error always lists every missing column
name. -/
theorem C4_missing_columns_claim_false :
    process_excel_data keyErrorDf ["u"] =
      Except.error (PyError.keyError "PUT IN REPORT (T/F)") ∧
    (∀ msg : String, process_excel_data keyErrorDf ["u"] ≠
      Except.error (PyError.valueError msg)) ∧
    "Floor Size (m²)" ∈ required_columns ∧
    keyErrorDf.columns.contains "Floor Size (m²)" = false := by
  refine ⟨rfl, ?_, by decide, by decide⟩
  intro msg hmsg
  rw [show process_excel_data keyErrorDf ["u"] =
      Except.error (PyError.keyError "PUT IN REPORT (T/F)") from rfl] at hmsg
  simp at hmsg

/-- C4 (amended): with at least one required column absent,
`process_excel_data` always aborts with an error and never produces a
result dictionary; and whenever the pre-validation image mapping does not
interpose — no images were extracted, or the `PUT IN REPORT (T/F)` and
`Type` columns are both present — the error is the `ValueError` whose
message lists every missing column name (the filtered `missing_columns`
list keeps each missing required name). -/
theorem C4_missing_columns_abort (df : DataFrame) (images : List String)
    (h : required_columns.filter (fun c => !df.columns.contains c) ≠ []) :
    ((images = [] ∨
        (df.columns.contains "PUT IN REPORT (T/F)" = true ∧
          df.columns.contains "Type" = true)) →
      process_excel_data df images =
        Except.error (PyError.valueError ("Missing required columns: " ++
          pyStrListRepr (required_columns.filter (fun c => !df.columns.contains c))))) ∧
    (∀ c ∈ required_columns, ¬ df.columns.contains c →
      c ∈ required_columns.filter (fun c => !df.columns.contains c)) ∧
    ∀ res : ReportResult, process_excel_data df images ≠ Except.ok res := by
  have hm : (required_columns.filter (fun c => !df.columns.contains c)).isEmpty = false := by
    cases hq : required_columns.filter (fun c => !df.columns.contains c) with
    | nil => exact absurd hq h
    | cons a l => rfl
  refine ⟨?_, ?_, ?_⟩
  · intro hg
    have hchecked : ∃ d, map_images_to_properties_checked df images = Except.ok d := by
      rcases hg with rfl | ⟨h1, h2⟩
      · exact ⟨[], by simp [map_images_to_properties_checked]⟩
      · by_cases hie : images.isEmpty
        · exact ⟨[], by simp [map_images_to_properties_checked, hie]⟩
        · refine ⟨map_images_to_properties df images, ?_⟩
          have h1m : "PUT IN REPORT (T/F)" ∈ df.columns := by simpa using h1
          have h2m : "Type" ∈ df.columns := by simpa using h2
          simp [map_images_to_properties_checked, hie, h1m, h2m]
    obtain ⟨d, hd⟩ := hchecked
    simp only [process_excel_data, hd, hm, Bool.not_false, if_true]
  · intro c hc hnc
    simp only [List.mem_filter, Bool.not_eq_true']
    exact ⟨hc, by simpa using hnc⟩
  · intro res hres
    cases hmc : map_images_to_properties_checked df images with
    | error e =>
        simp only [process_excel_data, hmc] at hres
        exact Except.noConfusion hres
    | ok d =>
        simp only [process_excel_data, hmc, hm, Bool.not_false, if_true] at hres
        exact Except.noConfusion hres

theorem C4_missing_columns_abort_witness :
    process_excel_data missingFloorDf [] =
      Except.error (PyError.valueError
        ("Missing required columns: " ++ "[\x27Floor Size (m²)\x27]")) := by
  have h := (C4_missing_columns_abort missingFloorDf [] (by decide)).1 (Or.inl rfl)
  have hrep : pyStrListRepr
      (required_columns.filter (fun c => !missingFloorDf.columns.contains c)) =
      "[\x27Floor Size (m²)\x27]" := by decide
  rw [hrep] at h
  exact h

/-- C5: on success, the for-lease output list of `process_excel_data` has
exactly one normalized property per row with Type `For Lease` and
inclusion flag `T`, in source row order (it is the row-order-preserving
map over the filtered rows), and likewise for the for-sale list; in
particular every output property comes from a row whose inclusion flag is
`T`, so a row with the flag false never produces one, and nothing is
reordered. -/
theorem C5_row_selection_and_order (df : DataFrame) (images : List String)
    (res : ReportResult) (h : process_excel_data df images = Except.ok res) :
    (res.for_lease_properties =
      (df.rows.enum.filter (fun p => rowMatches "For Lease" "T" p.2)).map
        (fun p => extract_property_data p.2 "For Lease"
          ((map_images_to_properties df images).lookup p.1)) ∧
     res.for_sale_properties =
      (df.rows.enum.filter (fun p => rowMatches "For Sale" "T" p.2)).map
        (fun p => extract_property_data p.2 "For Sale"
          ((map_images_to_properties df images).lookup p.1))) ∧
    (∀ pd ∈ res.for_lease_properties, ∃ p, p ∈ df.rows.enum ∧
        p.2.type = "For Lease" ∧ p.2.putInReport = "T" ∧
        pd = extract_property_data p.2 "For Lease"
          ((map_images_to_properties df images).lookup p.1)) ∧
    (∀ pd ∈ res.for_sale_properties, ∃ p, p ∈ df.rows.enum ∧
        p.2.type = "For Sale" ∧ p.2.putInReport = "T" ∧
        pd = extract_property_data p.2 "For Sale"
          ((map_images_to_properties df images).lookup p.1)) := by
  simp only [process_excel_data] at h
  cases hmc : map_images_to_properties_checked df images with
  | error e =>
      rw [hmc] at h
      exact Except.noConfusion h
  | ok image_dict =>
  have hid := map_images_checked_ok df images image_dict hmc
  subst hid
  rw [hmc] at h
  by_cases hm : (required_columns.filter (fun c => !df.columns.contains c)).isEmpty
  · simp only [hm, Bool.not_true, Bool.false_eq_true, if_false, Except.ok.injEq] at h
    rw [foldl_append_singleton, foldl_append_singleton] at h
    have hlease : res.for_lease_properties =
        (df.rows.enum.filter (fun p => rowMatches "For Lease" "T" p.2)).map
          (fun p => extract_property_data p.2 "For Lease"
            ((map_images_to_properties df images).lookup p.1)) := by
      rw [← h]
      simp
    have hsale : res.for_sale_properties =
        (df.rows.enum.filter (fun p => rowMatches "For Sale" "T" p.2)).map
          (fun p => extract_property_data p.2 "For Sale"
            ((map_images_to_properties df images).lookup p.1)) := by
      rw [← h]
      simp
    refine ⟨⟨hlease, hsale⟩, ?_, ?_⟩
    · intro pd hpd
      rw [hlease] at hpd
      obtain ⟨p, hpmem, rfl⟩ := List.mem_map.mp hpd
      obtain ⟨hpe, hpm⟩ := List.mem_filter.mp hpmem
      simp only [rowMatches, Bool.and_eq_true, beq_iff_eq] at hpm
      exact ⟨p, hpe, hpm.1, hpm.2, rfl⟩
    · intro pd hpd
      rw [hsale] at hpd
      obtain ⟨p, hpmem, rfl⟩ := List.mem_map.mp hpd
      obtain ⟨hpe, hpm⟩ := List.mem_filter.mp hpmem
      simp only [rowMatches, Bool.and_eq_true, beq_iff_eq] at hpm
      exact ⟨p, hpe, hpm.1, hpm.2, rfl⟩
  · rw [Bool.not_eq_true] at hm
    simp only [hm, Bool.not_false, if_true] at h
    exact Except.noConfusion h

theorem C5_row_selection_and_order_witness :
    [extract_property_data oneLeaseRow "For Lease" Option.none] =
      (oneLeaseDf.rows.enum.filter (fun p => rowMatches "For Lease" "T" p.2)).map
        (fun p => extract_property_data p.2 "For Lease"
          ((map_images_to_properties oneLeaseDf []).lookup p.1)) :=
  ((C5_row_selection_and_order oneLeaseDf []
      { for_lease_properties := [extract_property_data oneLeaseRow "For Lease" Option.none]
        for_sale_properties := []
        statistics :=
          { for_lease := ⟨1, 1, 100⟩
            already_leased := ⟨0, 0, 0⟩
            for_sale := ⟨0, 0, 0⟩
            sold := ⟨0, 0, 0⟩ } }
      rfl).1).1

/-- C1 (counterexample): on the spec's example column values
`["$1,200", "1100.50", "bad", ""]` the average-price computation does not
return 1151 — the mean of the two parseable values is 1150.25, and
Python's round gives 1150. -/
theorem C1_average_price_claim_false :
    ¬ calculate_average_price_per_sqm avgExampleDf "For Lease" "T" = 1151 := by
  decide

/-- C1 (amended): the two unparseable entries are excluded from the
average (they coerce to missing), and the computation returns
round((1200 + 1100.50) / 2) = 1150. -/
theorem C1_average_price_amended :
    toNumericCoerce (.str "bad") = Option.none ∧
    toNumericCoerce (.str "") = Option.none ∧
    calculate_average_price_per_sqm avgExampleDf "For Lease" "T" = 1150 := by
  refine ⟨by decide, by decide, by decide⟩

theorem chunk3_join : ∀ (l : List α), (chunk3 l).flatten = l
  | [] => rfl
  | [a] => by simp [chunk3]
  | [a, b] => by simp [chunk3]
  | a :: b :: c :: rest => by simp [chunk3, chunk3_join rest]

theorem chunk3_mem_length : ∀ (l : List α), ∀ ch ∈ chunk3 l, 0 < ch.length ∧ ch.length ≤ 3
  | [], ch, h => by simp [chunk3] at h
  | [a], ch, h => by
      simp only [chunk3, List.mem_singleton] at h
      subst h; simp
  | [a, b], ch, h => by
      simp only [chunk3, List.mem_singleton] at h
      subst h; simp
  | a :: b :: c :: rest, ch, h => by
      rw [show chunk3 (a :: b :: c :: rest) = [a, b, c] :: chunk3 rest from rfl] at h
      rcases List.mem_cons.mp h with rfl | h2
      · simp
      · exact chunk3_mem_length rest ch h2

theorem chunk3_dropLast_length :
    ∀ (l : List α), ∀ ch ∈ (chunk3 l).dropLast, ch.length = 3
  | [], ch, h => by simp [chunk3] at h
  | [a], ch, h => by simp [chunk3] at h
  | [a, b], ch, h => by simp [chunk3] at h
  | a :: b :: c :: rest, ch, h => by
      cases hcr : chunk3 rest with
      | nil =>
          rw [show chunk3 (a :: b :: c :: rest) = [a, b, c] :: chunk3 rest from rfl,
            hcr] at h
          simp at h
      | cons y ys =>
          rw [show chunk3 (a :: b :: c :: rest) = [a, b, c] :: chunk3 rest from rfl,
            hcr, List.dropLast_cons₂] at h
          rcases List.mem_cons.mp h with rfl | h2
          · rfl
          · exact chunk3_dropLast_length rest ch (by rw [hcr]; exact h2)

theorem chunkBody_ne_nil (i : ℕ) (p : List (String × PValue))
    (rest : List (List (String × PValue))) : chunkBody i (p :: rest) ≠ [] := by
  simp [chunkBody]

theorem chunkBody_singleton (i : ℕ) (p : List (String × PValue)) :
    chunkBody i [p] = [RLElement.propEntry p] := rfl

theorem chunkBody_cons_cons (i : ℕ) (p q : List (String × PValue))
    (rest : List (List (String × PValue))) :
    chunkBody i (p :: q :: rest) =
      RLElement.propEntry p :: RLElement.spacer ::
        RLElement.divider (i % 2 == 0) :: RLElement.spacer ::
        chunkBody (i + 1) (q :: rest) := rfl

theorem chunkBody_dividers_count :
    ∀ (ch : List (List (String × PValue))) (i : ℕ), ch ≠ [] →
      countDividers (chunkBody i ch) = ch.length - 1
  | [], _, h => absurd rfl h
  | [p], i, _ => by simp [chunkBody_singleton, countDividers, isDivider]
  | p :: q :: rest, i, _ => by
      have ih := chunkBody_dividers_count (q :: rest) (i + 1) (by simp)
      simp only [countDividers] at ih ⊢
      rw [chunkBody_cons_cons]
      simp [List.countP_cons, isDivider]
      simp only [List.length_cons] at ih ⊢
      omega

theorem chunkBody_getLast :
    ∀ (ch : List (List (String × PValue))) (i : ℕ), ch ≠ [] →
      ∃ pd, (chunkBody i ch).getLast? = some (RLElement.propEntry pd)
  | [], _, h => absurd rfl h
  | [p], i, _ => ⟨p, rfl⟩
  | p :: q :: rest, i, _ => by
      obtain ⟨pd, hpd⟩ := chunkBody_getLast (q :: rest) (i + 1) (by simp)
      refine ⟨pd, ?_⟩
      have hne : chunkBody (i + 1) (q :: rest) ≠ [] := chunkBody_ne_nil _ _ _
      calc (chunkBody i (p :: q :: rest)).getLast?
          = ((RLElement.propEntry p :: [RLElement.spacer,
              RLElement.divider (i % 2 == 0), RLElement.spacer]) ++
              chunkBody (i + 1) (q :: rest)).getLast? := by
            simp [chunkBody]
        _ = (chunkBody (i + 1) (q :: rest)).getLast? :=
            List.getLast?_append_of_ne_nil _ hne
        _ = some (RLElement.propEntry pd) := hpd

theorem chunkBody_headers :
    ∀ (ch : List (List (String × PValue))) (i : ℕ),
      countHeaders (chunkBody i ch) = 0
  | [], _ => rfl
  | p :: rest, i => by
      have ih := chunkBody_headers rest (i + 1)
      by_cases hr : rest.isEmpty <;>
        simp [chunkBody, hr, countHeaders, List.countP_append, List.countP_cons,
          isHeader] <;>
        simpa [countHeaders] using ih

theorem joinPages_headers :
    ∀ (chunks : List (List (List (String × PValue)))),
      countHeaders (joinPages chunks) = chunks.length
  | [] => rfl
  | [ch] => by
      have h0 := chunkBody_headers ch 0
      simp only [countHeaders] at h0 ⊢
      simp [joinPages, pageElements, List.countP_cons, isHeader, h0]
  | ch :: ch2 :: rest => by
      have ih := joinPages_headers (ch2 :: rest)
      have h0 := chunkBody_headers ch 0
      simp only [countHeaders] at ih h0 ⊢
      simp [joinPages, pageElements, List.countP_append, List.countP_cons,
        isHeader, h0]
      simp only [List.length_cons] at ih
      omega

theorem create_property_pages_page_count
    (properties : List (List (String × PValue))) :
    countHeaders (create_property_pages properties) = (chunk3 properties).length := by
  have hj := joinPages_headers (chunk3 properties)
  simp only [countHeaders] at hj ⊢
  simp [create_property_pages, List.countP_append, List.countP_cons, isHeader, hj]

/-- C7: the composer chunks each category's properties into pages of
three — every page is nonempty, holds at most three properties, every
page but the last holds exactly three, and the pages concatenate back to
the input; a divider is emitted between consecutive properties of a page
(the count is the page size minus one) and never after a page's last
property (each page body ends with a property entry). Seven properties
yield exactly three pages of sizes [3, 3, 1], and the HTML composer uses
the same chunking. -/
theorem C7_pagination :
    (∀ props : List (List (String × PValue)),
      (chunk3 props).flatten = props ∧
      (∀ ch ∈ chunk3 props, 0 < ch.length ∧ ch.length ≤ 3) ∧
      (∀ ch ∈ (chunk3 props).dropLast, ch.length = 3) ∧
      countHeaders (create_property_pages props) = (chunk3 props).length) ∧
    (∀ (i : ℕ) (ch : List (List (String × PValue))), ch ≠ [] →
      countDividers (chunkBody i ch) = ch.length - 1 ∧
      ∃ pd, (chunkBody i ch).getLast? = some (RLElement.propEntry pd)) ∧
    (chunk3 sevenProps).map List.length = [3, 3, 1] ∧
    countHeaders (create_property_pages sevenProps) = 3 ∧
    htmlPropertyChunks sevenProps = chunk3 sevenProps := by
  refine ⟨?_, ?_, by decide, by decide, rfl⟩
  · intro props
    exact ⟨chunk3_join props, chunk3_mem_length props, chunk3_dropLast_length props,
      create_property_pages_page_count props⟩
  · intro i ch h
    exact ⟨chunkBody_dividers_count ch i h, chunkBody_getLast ch i h⟩

theorem C7_pagination_witness :
    countDividers (chunkBody 0 (List.replicate 3 ([] : List (String × PValue)))) =
      (List.replicate 3 ([] : List (String × PValue))).length - 1 :=
  (C7_pagination.2.1 0 _ (by decide)).1

theorem checkHeaders_first_violation (actual : List String) :
    ∀ (pre : List (String × String)) (e : String × String)
      (post : List (String × String)),
      (∀ q ∈ pre, headerViolation actual q = false) →
      headerViolation actual e = true →
      checkHeaders actual (pre ++ e :: post) =
        { valid := false, error := some (violationError actual e) } := by
  intro pre
  induction pre with
  | nil =>
      intro e post _ hv
      obtain ⟨c, hdr⟩ := e
      simp only [headerViolation, Bool.or_eq_true, decide_eq_true_eq,
        bne_iff_ne, ne_eq] at hv
      by_cases hr : column_letter_to_index c ≥ (actual.length : ℤ)
      · simp [checkHeaders, violationError, hr]
      · have hm : actual.getD (column_letter_to_index c).toNat "" ≠ hdr := by
          rcases hv with hv | hv
          · exact absurd hv hr
          · exact hv
        have hm2 : actual[(column_letter_to_index c).toNat]?.getD "" ≠ hdr := by
          simpa [List.getD_eq_getElem?_getD] using hm
        simp [checkHeaders, violationError, hr, hm, hm2]
  | cons q qs ih =>
      intro e post hpre hv
      obtain ⟨c, hdr⟩ := q
      have hq := hpre (c, hdr) (by simp)
      simp only [headerViolation, Bool.or_eq_false_iff, decide_eq_false_iff_not,
        bne_eq_false_iff_eq] at hq
      obtain ⟨hr, hm⟩ := hq
      have hm2 : actual[(column_letter_to_index c).toNat]?.getD "" = hdr := by
        simpa [List.getD_eq_getElem?_getD] using hm
      have step : checkHeaders actual (((c, hdr) :: qs) ++ e :: post) =
          checkHeaders actual (qs ++ e :: post) := by
        simp [checkHeaders, hr, hm, hm2]
      rw [step]
      exact ih e post (fun r hrm => hpre r (by simp [hrm])) hv

/-- C8: `validate_headers` fails fast — whenever the expected-header list
splits as `pre ++ e :: post` with every entry of `pre` satisfied and `e`
violated, the result reports exactly `e`'s violation, regardless of any
further violations among the later entries. -/
theorem C8_validate_headers_fails_fast (actual : List String)
    (pre : List (String × String)) (e : String × String)
    (post : List (String × String))
    (hsplit : expected_headers = pre ++ e :: post)
    (hpre : ∀ q ∈ pre, headerViolation actual q = false)
    (hv : headerViolation actual e = true) :
    validate_headers actual =
      { valid := false, error := some (violationError actual e) } := by
  rw [validate_headers, hsplit]
  exact checkHeaders_first_violation actual pre e post hpre hv

theorem C8_validate_headers_fails_fast_witness :
    validate_headers ["Type", "WRONG"] =
      { valid := false
        error := some (violationError ["Type", "WRONG"] ("B", "Property Photo")) } :=
  C8_validate_headers_fails_fast ["Type", "WRONG"] [("A", "Type")]
    ("B", "Property Photo") (expected_headers.drop 2) rfl (by decide) (by decide)

theorem fold26 :
    ∀ (l : List Char) (a : ℤ),
      l.foldl (fun r c => r * 26 + ((c.toUpper.toNat : ℤ) - 65) + 1) a =
        a * 26 ^ l.length + bijBase26 l
  | [], a => by simp [bijBase26]
  | c :: rest, a => by
      simp only [List.foldl_cons, bijBase26, List.length_cons]
      rw [fold26 rest]
      ring

/-- C9: the letter-to-index translation of the schema validator is
zero-based bijective base-26 — for every string it equals the base-26
value with digit values A=0 … Z=25 shifted by one, minus one; in
particular `A` maps to 0, `Z` to 25 and `AA` to 26. -/
theorem C9_column_letter_to_index_base26 :
    (∀ s : String, column_letter_to_index s = bijBase26 s.toList - 1) ∧
    column_letter_to_index "A" = 0 ∧
    column_letter_to_index "Z" = 25 ∧
    column_letter_to_index "AA" = 26 := by
  refine ⟨?_, by decide, by decide, by decide⟩
  intro s
  simp only [column_letter_to_index]
  rw [fold26]
  simp

/-- C10: brand selection cannot fail — every business-type string whose
lowercase form is not `busivet` receives the BusiHealth preset (logo,
watermark, website, email and first-line text), so only two distinct
brand configurations exist and unrecognized keys fall back to the
BusiHealth default. -/
theorem C10_brand_preset_fallback :
    (∀ s : String, brandConfig s = busivetConfig ∨ brandConfig s = busihealthConfig) ∧
    (∀ s : String, lowerString s ≠ "busivet" → brandConfig s = busihealthConfig) ∧
    busivetConfig ≠ busihealthConfig := by
  refine ⟨?_, ?_, by decide⟩
  · intro s
    by_cases h : lowerString s = "busivet"
    · exact Or.inl (by simp [brandConfig, h])
    · exact Or.inr (by simp [brandConfig, h])
  · intro s h
    simp [brandConfig, h]

theorem C10_brand_preset_fallback_witness :
    brandConfig "unknown-brand" = busihealthConfig :=
  C10_brand_preset_fallback.2.1 "unknown-brand" (by decide)
